import Mathlib

/-!
Verification of the ZnVis `Visualizer` playback and recording core
(`znvis/visualizer/visualizer.py`) against its natural-language
specification.  The Python methods are shallowly embedded as Lean
functions; the threaded recording pipeline and the play/pause state
machine are embedded as small-step transition relations whose GUI-thread
queue reflects the in-submission-order execution contract of
`post_to_main_thread`.
-/

namespace ZnVis

/-! ### Step counter (`Visualizer._update_particles`, lines 346-369)

The source advances the counter with
`if self.counter == self.number_of_steps - 1: self.counter = 0
 else: self.counter += 1`. -/

/-- Wraparound advance of the step counter, as written in
`_update_particles` for the `step is None` branch. -/
def advance (S c : Nat) : Nat :=
  if c = S - 1 then 0 else c + 1

/-- Result of one `_update_particles` call: the new value of
`self.counter` and the step whose cached meshes `_draw_particles`
draws (the source draws `item.mesh_dict[self.counter]`). -/
structure UpdResult where
  counter : Nat
  drawnStep : Nat
deriving DecidableEq

/-- Embedding of `_update_particles(visualizer, step)`.  When `step` is
`None` the counter is advanced with wraparound and the new counter is
drawn.  When an explicit `step` is passed, the source neither assigns
`self.counter = step` nor passes `step` to `_draw_particles`; it draws
`mesh_dict[self.counter]` unchanged, so the argument has no effect. -/
def update_particles (S : Nat) (counter : Nat) (step : Option Nat) : UpdResult :=
  match step with
  | none =>
    let c := advance S counter
    { counter := c, drawnStep := c }
  | some _ => { counter := counter, drawnStep := counter }

theorem advance_eq_mod (S c : Nat) (hS : 1 ≤ S) (hc : c < S) :
    advance S c = (c + 1) % S := by
  unfold advance
  by_cases h : c = S - 1
  · subst h
    have hs : S - 1 + 1 = S := Nat.succ_pred_eq_of_pos hS
    simp [hs, Nat.mod_self]
  · have hlt : c + 1 < S := by omega
    simp [h, Nat.mod_eq_of_lt hlt]

theorem advance_lt (S c : Nat) (hS : 1 ≤ S) (hc : c < S) :
    advance S c < S := by
  rw [advance_eq_mod S c hS hc]
  exact Nat.mod_lt _ hS

theorem advance_iterate (S : Nat) (hS : 1 ≤ S) :
    ∀ k, k ≤ S → (advance S)^[k] 0 = k % S := by
  intro k
  induction k with
  | zero => intro _; simp
  | succ k ih =>
    intro hk
    have hks : k ≤ S := Nat.le_of_succ_le hk
    have hklt : k < S := Nat.lt_of_succ_le hk
    rw [Function.iterate_succ_apply', ih hks, Nat.mod_eq_of_lt hklt,
      advance_eq_mod S k hS hklt]

/-- Claim C3: a no-argument advance of the step counter maps any counter
`c < S` to `(c + 1) mod S` (so `S - 1` wraps to `0`), stays below `S`,
and `S` consecutive advances from `0` return the counter to `0`. -/
theorem step_counter_wraparound (S c : Nat) (hS : 1 ≤ S) (hc : c < S) :
    (update_particles S c none).counter = (c + 1) % S ∧
    (update_particles S c none).counter < S ∧
    (fun x => (update_particles S x none).counter)^[S] 0 = 0 := by
  refine ⟨advance_eq_mod S c hS hc, advance_lt S c hS hc, ?_⟩
  have hfun : (fun x => (update_particles S x none).counter) = advance S := rfl
  rw [hfun, advance_iterate S hS S (Nat.le_refl S), Nat.mod_self]

theorem step_counter_wraparound_witness :
    (1 ≤ 5 ∧ (3 : Nat) < 5) ∧
    ((update_particles 5 3 none).counter = (3 + 1) % 5 ∧
     (update_particles 5 3 none).counter < 5 ∧
     (fun x => (update_particles 5 x none).counter)^[5] 0 = 0) :=
  ⟨by decide, step_counter_wraparound 5 3 (by decide) (by decide)⟩

/-- Claim C4: calling `_update_particles` with an explicit step `3` from
counter `0` (with `S = 5`) leaves the counter at `0` and draws step `0`;
it does not set the counter to `3` nor draw step `3`, contradicting the
`step : int -- Step to update to` docstring of the source. -/
theorem update_particles_ignores_explicit_step :
    update_particles 5 0 (some 3) = { counter := 0, drawnStep := 0 } ∧
    update_particles 5 0 (some 3) ≠ { counter := 3, drawnStep := 3 } := by
  decide

/-! ### Frame sorting and movie assembly (`Visualizer._create_movie`,
lines 157-184, and `Visualizer._export_video`, lines 135-155)

`_create_movie` globs `temp_video/*.png`, sorts the names with
`key=lambda s: int(re.search(r"\d+", s).group())` (the first maximal
digit run of the name, numerically), reads `images[0]` (an IndexError
on an empty capture, raised before the `cv2.VideoWriter` is created),
writes the images in sorted order, and removes `temp_video` unless
`store_run_files` is set.  `_export_video` first runs
`os.mkdir("temp_video")`, which raises `FileExistsError` when the
directory already exists, before the recording thread is started. -/

/-- Longest leading run of decimal digits of a character list. -/
def takeDigits : List Char → List Char
  | [] => []
  | c :: cs => if c.isDigit then c :: takeDigits cs else []

/-- First maximal run of decimal digits, as matched by
`re.search(r"\d+", s)`; `none` when the name holds no digit. -/
def findFirstNum : List Char → Option (List Char)
  | [] => none
  | c :: cs => if c.isDigit then some (c :: takeDigits cs) else findFirstNum cs

/-- Numeric value of a digit run, as computed by Python `int`. -/
def digitsToNat (ds : List Char) : Nat :=
  ds.foldl (fun acc c => 10 * acc + (c.toNat - 48)) 0

/-- Embedded numeric index of a frame file name: the value of its first
maximal digit run, when one exists. -/
def extractIndex (s : String) : Option Nat :=
  (findFirstNum s.data).map digitsToNat

/-- Total sort key used below; equals the embedded index on every name
that has one. -/
def frameKey (s : String) : Nat :=
  (extractIndex s).getD 0

instance frameKeyLE_dec : DecidableRel (fun a b : String => frameKey a ≤ frameKey b) :=
  fun a b => Nat.decLe _ _

instance frameKeyLE_total : IsTotal String (fun a b => frameKey a ≤ frameKey b) :=
  ⟨fun a b => Nat.le_total _ _⟩

instance frameKeyLE_trans : IsTrans String (fun a b => frameKey a ≤ frameKey b) :=
  ⟨fun _ _ _ h1 h2 => Nat.le_trans h1 h2⟩

/-- Stable sort of the globbed frame names by embedded numeric index,
modelling `sorted(images, key=lambda s: int(re.search(r"\d+", s).group()))`. -/
def sortFrames (l : List String) : List String :=
  List.insertionSort (fun a b => frameKey a ≤ frameKey b) l

/-- Embedding of `_create_movie`: sorts the frame names, fails with an
`IndexError` on an empty capture (the `images[0]` read, which happens
before any `cv2.VideoWriter` is constructed), and otherwise yields the
video as its ordered list of written images together with whether the
`temp_video` directory remains afterwards (`store_run_files`). -/
def createMovie (store_run_files : Bool) (files : List String) :
    Except String (List String × Bool) :=
  match sortFrames files with
  | [] => Except.error "IndexError: list index out of range"
  | img :: imgs => Except.ok (img :: imgs, store_run_files)

/-- Whether an `Except` result is a success. -/
def succeeded {ε α : Type} : Except ε α → Bool
  | Except.ok _ => true
  | Except.error _ => false

/-- Embedding of one full Export Video run: `os.mkdir("temp_video")`
raises `FileExistsError` when the directory exists (before the
recording thread is started), otherwise the run records and assembles
via `_create_movie`. -/
def exportVideoRun (store_run_files : Bool) (tempDirExists : Bool)
    (frames : List String) : Except String (List String × Bool) :=
  if tempDirExists then Except.error "FileExistsError: temp_video"
  else createMovie store_run_files frames

/-- Claim C6: the assembler orders frames by the numeric value of the embedded
index: the sorted list is a permutation of the input, pairwise
nondecreasing in the numeric key, and on the concrete directory
`frame_2.png, frame_10.png, frame_1.png` the assembled order is
`frame_1, frame_2, frame_10`, not lexical string order. -/
theorem assembler_sorts_numerically (l : List String)
    (h : ∀ s ∈ l, (extractIndex s).isSome = true) :
    (sortFrames l).Perm l ∧
    List.Pairwise (fun a b => frameKey a ≤ frameKey b) (sortFrames l) ∧
    sortFrames ["temp_video/frame_2.png", "temp_video/frame_10.png",
        "temp_video/frame_1.png"] =
      ["temp_video/frame_1.png", "temp_video/frame_2.png",
        "temp_video/frame_10.png"] := by
  refine ⟨List.perm_insertionSort _ l, ?_, by rfl⟩
  exact List.sorted_insertionSort (fun a b => frameKey a ≤ frameKey b) l

theorem assembler_sorts_numerically_witness :
    (∀ s ∈ ["temp_video/frame_2.png", "temp_video/frame_10.png",
        "temp_video/frame_1.png"], (extractIndex s).isSome = true) ∧
    ((sortFrames ["temp_video/frame_2.png", "temp_video/frame_10.png",
        "temp_video/frame_1.png"]).Perm
      ["temp_video/frame_2.png", "temp_video/frame_10.png",
        "temp_video/frame_1.png"] ∧
     List.Pairwise (fun a b => frameKey a ≤ frameKey b)
       (sortFrames ["temp_video/frame_2.png", "temp_video/frame_10.png",
         "temp_video/frame_1.png"]) ∧
     sortFrames ["temp_video/frame_2.png", "temp_video/frame_10.png",
         "temp_video/frame_1.png"] =
       ["temp_video/frame_1.png", "temp_video/frame_2.png",
         "temp_video/frame_10.png"]) :=
  ⟨by decide,
   assembler_sorts_numerically
     ["temp_video/frame_2.png", "temp_video/frame_10.png",
       "temp_video/frame_1.png"] (by decide)⟩

/-- Claim C7: invoking the assembler on an empty capture directory fails with
an error raised before any video container is created, for either value
of `store_run_files`; no output artifact is produced. -/
theorem assembler_empty_fails :
    createMovie false [] = Except.error "IndexError: list index out of range" ∧
    createMovie true [] = Except.error "IndexError: list index out of range" ∧
    succeeded (createMovie false []) = false ∧
    succeeded (createMovie true []) = false :=
  ⟨rfl, rfl, rfl, rfl⟩

/-- Claim C10: with `store_run_files = True` a first Export Video run (no
`temp_video` directory yet) succeeds and leaves the directory behind,
and every later invocation fails at `os.mkdir` with `FileExistsError`
before its recording thread is started, so the action succeeds at most
once. -/
theorem export_video_at_most_once :
    exportVideoRun true false ["temp_video/frame_0.png"] =
      Except.ok (["temp_video/frame_0.png"], true) ∧
    exportVideoRun true true ["temp_video/frame_0.png"] =
      Except.error "FileExistsError: temp_video" ∧
    (∀ frames : List String,
      exportVideoRun true true frames = Except.error "FileExistsError: temp_video") :=
  ⟨rfl, rfl, fun _ => rfl⟩

/-! ### Recording pipeline (`Visualizer._record_trajectory`, lines 283-324)

The driver loop runs on a background thread; `save_callable` (write
`temp_video/frame_<counter>.png`, set `save_thread_finished`) and
`update_callable` (advance the counter via `_update_particles()`, set
`update_thread_finished`) run on the GUI thread.  `post_to_main_thread`
executes submitted callables exactly once, in submission order, on the
GUI thread, which we model as a FIFO queue of jobs.  The loop body
after the sleep is TWO separate `if` statements with no lock, so the
GUI thread can execute queued callables between them; the driver
therefore carries a position marker `atSecondIf`, and each `if` is a
separate transition.  Each single `if` is modelled as one atomic
action, which is faithful: when the first `if` fires, both flags are
true, so (by the queue/flag invariant proved below) no callable is
pending and the GUI thread has nothing to run inside it; when the
second `if` fires only a save callable can be pending, and that branch
neither reads nor writes the save flag while FIFO order puts the
posted update after the pending save either way.  The loop runs while
the rich progress task (total `number_of_steps`, advanced once per
capture submission) is unfinished; the condition is checked before the
first `if`.  The source never resets `self.counter` before recording,
so the initial counter of a run is a parameter `c0`. -/

/-- A callable submitted to the GUI thread by the recording driver. -/
inductive Job where
  | save
  | update
deriving DecidableEq

/-- State of one recording run: the shared step counter, the two
handshake flags, the FIFO queue of submitted-but-unexecuted GUI
callables, the numeric indices of the frame files written so far (in
write order; index `i` names `temp_video/frame_i.png`), the rich
progress count of capture submissions, and the driver position
(`atSecondIf = true` between the two `if` statements of the loop
body). -/
structure RecState where
  counter : Nat
  save_thread_finished : Bool
  update_thread_finished : Bool
  queue : List Job
  frames : List Nat
  progress : Nat
  atSecondIf : Bool
deriving DecidableEq

/-- The first `if` of the loop body: when both flags are set, clear
`save_thread_finished`, submit the save callable and advance the
progress count; then the driver stands before the second `if`. -/
def driverFirstIf (s : RecState) : RecState :=
  if s.save_thread_finished && s.update_thread_finished then
    { s with save_thread_finished := false, queue := s.queue ++ [Job.save], progress := s.progress + 1, atSecondIf := true }
  else { s with atSecondIf := true }

/-- The second `if` of the loop body: when `update_thread_finished` is
set, clear it and submit the update callable; then the driver is back
at the loop head. -/
def driverSecondIf (s : RecState) : RecState :=
  if s.update_thread_finished then
    { s with update_thread_finished := false, queue := s.queue ++ [Job.update], atSecondIf := false }
  else { s with atSecondIf := false }

/-- The GUI thread executes the oldest submitted callable:
`save_callable` writes `frame_<counter>.png` and sets its flag;
`update_callable` advances the counter with wraparound and sets its
flag. -/
def guiRun (S : Nat) (s : RecState) : RecState :=
  match s.queue with
  | [] => s
  | Job.save :: rest =>
    { s with queue := rest, frames := s.frames ++ [s.counter], save_thread_finished := true }
  | Job.update :: rest =>
    { s with queue := rest, counter := (update_particles S s.counter none).counter, update_thread_finished := true }

/-- Interleaving semantics of one recording run: the driver executes
its next `if` statement (the first one only while fewer than `S`
captures were submitted, per the loop condition), or the GUI thread
runs the oldest pending callable, in any order. -/
inductive RecStep (S : Nat) : RecState → RecState → Prop where
  | firstIf (s : RecState) : s.atSecondIf = false → s.progress < S →
      RecStep S s (driverFirstIf s)
  | secondIf (s : RecState) : s.atSecondIf = true → RecStep S s (driverSecondIf s)
  | gui (s : RecState) : s.queue ≠ [] → RecStep S s (guiRun S s)

/-- Initial state of a recording run started at counter `c0` (the
source never resets `self.counter` before recording): both handshake
flags are set to true before the loop starts (lines 287-288), nothing
is queued or written. -/
def initRecFrom (c0 : Nat) : RecState :=
  { counter := c0, save_thread_finished := true, update_thread_finished := true, queue := [], frames := [], progress := 0, atSecondIf := false }

/-- Reachability of a recording-run state under arbitrary interleaving
of driver statements and GUI-thread executions. -/
def RecReach (S c0 : Nat) (s : RecState) : Prop :=
  Relation.ReflTransGen (RecStep S) (initRecFrom c0) s

/-- Queue/flag invariant: exactly one save callable is outstanding
while `save_thread_finished` is false and none while it is true, and
likewise for update callables. -/
def FlagInv (s : RecState) : Prop :=
  s.queue.count Job.save = (if s.save_thread_finished = true then 0 else 1) ∧
  s.queue.count Job.update = (if s.update_thread_finished = true then 0 else 1)

theorem flagInv_init (c0 : Nat) : FlagInv (initRecFrom c0) :=
  ⟨rfl, rfl⟩

theorem flagInv_step (S : Nat) (s s2 : RecState) (h : FlagInv s)
    (hstep : RecStep S s s2) : FlagInv s2 := by
  obtain ⟨h1, h2⟩ := h
  cases hstep with
  | firstIf hat hlt =>
    obtain ⟨c, sv, up, q, fr, pg, ph⟩ := s
    simp only at h1 h2
    cases sv <;> cases up <;>
      simp_all [FlagInv, driverFirstIf, List.count_append, List.count_cons,
        List.count_nil]
  | secondIf hat =>
    obtain ⟨c, sv, up, q, fr, pg, ph⟩ := s
    simp only at h1 h2
    cases up <;>
      simp_all [FlagInv, driverSecondIf, List.count_append, List.count_cons,
        List.count_nil]
  | gui hq =>
    obtain ⟨c, sv, up, q, fr, pg, ph⟩ := s
    simp only at h1 h2 hq
    cases q with
    | nil => exact absurd rfl hq
    | cons j rest =>
      cases j with
      | save =>
        cases sv with
        | true => simp [List.count_cons] at h1
        | false =>
          have hrest : rest.count Job.save = 0 := by
            simp [List.count_cons] at h1
            omega
          refine ⟨?_, ?_⟩ <;>
            simp_all [FlagInv, guiRun, List.count_cons]
      | update =>
        cases up with
        | true => simp [List.count_cons] at h2
        | false =>
          have hrest : rest.count Job.update = 0 := by
            simp [List.count_cons] at h2
            omega
          refine ⟨?_, ?_⟩ <;>
            simp_all [FlagInv, guiRun, List.count_cons]

theorem recReach_flagInv (S c0 : Nat) (s : RecState) (h : RecReach S c0 s) :
    FlagInv s := by
  induction h with
  | refl => exact flagInv_init c0
  | tail hab hbc ih => exact flagInv_step S _ _ ih hbc

/-- Claim C2: in every state reachable under any interleaving of a
recording run started at any counter, at most one capture callable and
at most one advance callable are outstanding on the GUI queue (a
capture is never submitted while a previous capture has not completed,
since `save_thread_finished` is false exactly while one is
outstanding, and likewise for advances), and both handshake flags are
initialized to true before the loop starts. -/
theorem recording_no_stacked_submissions (S c0 : Nat) (s : RecState)
    (h : RecReach S c0 s) :
    s.queue.count Job.save ≤ 1 ∧ s.queue.count Job.update ≤ 1 ∧
    (s.save_thread_finished = true → Job.save ∉ s.queue) ∧
    (s.update_thread_finished = true → Job.update ∉ s.queue) ∧
    (initRecFrom c0).save_thread_finished = true ∧
    (initRecFrom c0).update_thread_finished = true := by
  obtain ⟨h1, h2⟩ := recReach_flagInv S c0 s h
  refine ⟨?_, ?_, ?_, ?_, rfl, rfl⟩
  · rw [h1]; split <;> omega
  · rw [h2]; split <;> omega
  · intro hs
    rw [hs] at h1
    simp only [if_pos rfl] at h1
    exact List.count_eq_zero.mp h1
  · intro hu
    rw [hu] at h2
    simp only [if_pos rfl] at h2
    exact List.count_eq_zero.mp h2

theorem recording_no_stacked_submissions_witness :
    (initRecFrom 7).queue.count Job.save ≤ 1 ∧
    (initRecFrom 7).queue.count Job.update ≤ 1 ∧
    ((initRecFrom 7).save_thread_finished = true →
      Job.save ∉ (initRecFrom 7).queue) ∧
    ((initRecFrom 7).update_thread_finished = true →
      Job.update ∉ (initRecFrom 7).queue) ∧
    (initRecFrom 7).save_thread_finished = true ∧
    (initRecFrom 7).update_thread_finished = true :=
  recording_no_stacked_submissions 2 7 (initRecFrom 7) Relation.ReflTransGen.refl

/-- Claim C1 counterexample: the program does not guarantee the frame
set.  First conjunct: with `S = 3`, from the initial counter `0`, the
schedule in which the first capture's update callable is still pending
when the driver's first `if` reads `update_thread_finished = False`
(so the capture is skipped while two advances run back to back)
reaches a terminal state (3 capture submissions, queue drained) whose
written files are `frame_0, frame_2, frame_0`: index 1 is skipped and
index 0 is written twice (overwritten), so the set is not
`frame_0, frame_1, frame_2`.  Second conjunct: a run started at
counter `1` (the source never resets the counter before recording),
even with every callback completing promptly, writes
`frame_1, frame_2, frame_0` — not strictly increasing from 0 to
`S - 1` in write order. -/
theorem recording_frames_counterexample :
    (RecReach 3 0
      { counter := 1, save_thread_finished := true, update_thread_finished := true, queue := [], frames := [0, 2, 0], progress := 3, atSecondIf := false } ∧
     ([0, 2, 0] : List Nat) ≠ List.range 3 ∧
     (1 : Nat) ∉ ([0, 2, 0] : List Nat) ∧
     ([0, 2, 0] : List Nat).count 0 = 2) ∧
    (RecReach 3 1
      { counter := 1, save_thread_finished := true, update_thread_finished := true, queue := [], frames := [1, 2, 0], progress := 3, atSecondIf := false } ∧
     ([1, 2, 0] : List Nat) ≠ List.range 3 ∧
     ¬ List.Pairwise (fun a b => a < b) ([1, 2, 0] : List Nat)) := by
  refine ⟨⟨?_, by decide, by decide, by decide⟩, ?_, by decide, by decide⟩
  · -- adversarial schedule from counter 0
    have r0 : RecReach 3 0 (initRecFrom 0) := Relation.ReflTransGen.refl
    have t1 : RecStep 3
        { counter := 0, save_thread_finished := true, update_thread_finished := true, queue := [], frames := [], progress := 0, atSecondIf := false }
        { counter := 0, save_thread_finished := false, update_thread_finished := true, queue := [Job.save], frames := [], progress := 1, atSecondIf := true } :=
      RecStep.firstIf _ rfl (by decide)
    have r1 : RecReach 3 0
        { counter := 0, save_thread_finished := false, update_thread_finished := true, queue := [Job.save], frames := [], progress := 1, atSecondIf := true } :=
      r0.tail t1
    have t2 : RecStep 3
        { counter := 0, save_thread_finished := false, update_thread_finished := true, queue := [Job.save], frames := [], progress := 1, atSecondIf := true }
        { counter := 0, save_thread_finished := false, update_thread_finished := false, queue := [Job.save, Job.update], frames := [], progress := 1, atSecondIf := false } :=
      RecStep.secondIf _ rfl
    have r2 : RecReach 3 0
        { counter := 0, save_thread_finished := false, update_thread_finished := false, queue := [Job.save, Job.update], frames := [], progress := 1, atSecondIf := false } :=
      r1.tail t2
    have t3 : RecStep 3
        { counter := 0, save_thread_finished := false, update_thread_finished := false, queue := [Job.save, Job.update], frames := [], progress := 1, atSecondIf := false }
        { counter := 0, save_thread_finished := true, update_thread_finished := false, queue := [Job.update], frames := [0], progress := 1, atSecondIf := false } :=
      RecStep.gui _ (by decide)
    have r3 : RecReach 3 0
        { counter := 0, save_thread_finished := true, update_thread_finished := false, queue := [Job.update], frames := [0], progress := 1, atSecondIf := false } :=
      r2.tail t3
    have t4 : RecStep 3
        { counter := 0, save_thread_finished := true, update_thread_finished := false, queue := [Job.update], frames := [0], progress := 1, atSecondIf := false }
        { counter := 0, save_thread_finished := true, update_thread_finished := false, queue := [Job.update], frames := [0], progress := 1, atSecondIf := true } :=
      RecStep.firstIf _ rfl (by decide)
    have r4 : RecReach 3 0
        { counter := 0, save_thread_finished := true, update_thread_finished := false, queue := [Job.update], frames := [0], progress := 1, atSecondIf := true } :=
      r3.tail t4
    have t5 : RecStep 3
        { counter := 0, save_thread_finished := true, update_thread_finished := false, queue := [Job.update], frames := [0], progress := 1, atSecondIf := true }
        { counter := 1, save_thread_finished := true, update_thread_finished := true, queue := [], frames := [0], progress := 1, atSecondIf := true } :=
      RecStep.gui _ (by decide)
    have r5 : RecReach 3 0
        { counter := 1, save_thread_finished := true, update_thread_finished := true, queue := [], frames := [0], progress := 1, atSecondIf := true } :=
      r4.tail t5
    have t6 : RecStep 3
        { counter := 1, save_thread_finished := true, update_thread_finished := true, queue := [], frames := [0], progress := 1, atSecondIf := true }
        { counter := 1, save_thread_finished := true, update_thread_finished := false, queue := [Job.update], frames := [0], progress := 1, atSecondIf := false } :=
      RecStep.secondIf _ rfl
    have r6 : RecReach 3 0
        { counter := 1, save_thread_finished := true, update_thread_finished := false, queue := [Job.update], frames := [0], progress := 1, atSecondIf := false } :=
      r5.tail t6
    have t7 : RecStep 3
        { counter := 1, save_thread_finished := true, update_thread_finished := false, queue := [Job.update], frames := [0], progress := 1, atSecondIf := false }
        { counter := 2, save_thread_finished := true, update_thread_finished := true, queue := [], frames := [0], progress := 1, atSecondIf := false } :=
      RecStep.gui _ (by decide)
    have r7 : RecReach 3 0
        { counter := 2, save_thread_finished := true, update_thread_finished := true, queue := [], frames := [0], progress := 1, atSecondIf := false } :=
      r6.tail t7
    have t8 : RecStep 3
        { counter := 2, save_thread_finished := true, update_thread_finished := true, queue := [], frames := [0], progress := 1, atSecondIf := false }
        { counter := 2, save_thread_finished := false, update_thread_finished := true, queue := [Job.save], frames := [0], progress := 2, atSecondIf := true } :=
      RecStep.firstIf _ rfl (by decide)
    have r8 : RecReach 3 0
        { counter := 2, save_thread_finished := false, update_thread_finished := true, queue := [Job.save], frames := [0], progress := 2, atSecondIf := true } :=
      r7.tail t8
    have t9 : RecStep 3
        { counter := 2, save_thread_finished := false, update_thread_finished := true, queue := [Job.save], frames := [0], progress := 2, atSecondIf := true }
        { counter := 2, save_thread_finished := true, update_thread_finished := true, queue := [], frames := [0, 2], progress := 2, atSecondIf := true } :=
      RecStep.gui _ (by decide)
    have r9 : RecReach 3 0
        { counter := 2, save_thread_finished := true, update_thread_finished := true, queue := [], frames := [0, 2], progress := 2, atSecondIf := true } :=
      r8.tail t9
    have t10 : RecStep 3
        { counter := 2, save_thread_finished := true, update_thread_finished := true, queue := [], frames := [0, 2], progress := 2, atSecondIf := true }
        { counter := 2, save_thread_finished := true, update_thread_finished := false, queue := [Job.update], frames := [0, 2], progress := 2, atSecondIf := false } :=
      RecStep.secondIf _ rfl
    have r10 : RecReach 3 0
        { counter := 2, save_thread_finished := true, update_thread_finished := false, queue := [Job.update], frames := [0, 2], progress := 2, atSecondIf := false } :=
      r9.tail t10
    have t11 : RecStep 3
        { counter := 2, save_thread_finished := true, update_thread_finished := false, queue := [Job.update], frames := [0, 2], progress := 2, atSecondIf := false }
        { counter := 0, save_thread_finished := true, update_thread_finished := true, queue := [], frames := [0, 2], progress := 2, atSecondIf := false } :=
      RecStep.gui _ (by decide)
    have r11 : RecReach 3 0
        { counter := 0, save_thread_finished := true, update_thread_finished := true, queue := [], frames := [0, 2], progress := 2, atSecondIf := false } :=
      r10.tail t11
    have t12 : RecStep 3
        { counter := 0, save_thread_finished := true, update_thread_finished := true, queue := [], frames := [0, 2], progress := 2, atSecondIf := false }
        { counter := 0, save_thread_finished := false, update_thread_finished := true, queue := [Job.save], frames := [0, 2], progress := 3, atSecondIf := true } :=
      RecStep.firstIf _ rfl (by decide)
    have r12 : RecReach 3 0
        { counter := 0, save_thread_finished := false, update_thread_finished := true, queue := [Job.save], frames := [0, 2], progress := 3, atSecondIf := true } :=
      r11.tail t12
    have t13 : RecStep 3
        { counter := 0, save_thread_finished := false, update_thread_finished := true, queue := [Job.save], frames := [0, 2], progress := 3, atSecondIf := true }
        { counter := 0, save_thread_finished := true, update_thread_finished := true, queue := [], frames := [0, 2, 0], progress := 3, atSecondIf := true } :=
      RecStep.gui _ (by decide)
    have r13 : RecReach 3 0
        { counter := 0, save_thread_finished := true, update_thread_finished := true, queue := [], frames := [0, 2, 0], progress := 3, atSecondIf := true } :=
      r12.tail t13
    have t14 : RecStep 3
        { counter := 0, save_thread_finished := true, update_thread_finished := true, queue := [], frames := [0, 2, 0], progress := 3, atSecondIf := true }
        { counter := 0, save_thread_finished := true, update_thread_finished := false, queue := [Job.update], frames := [0, 2, 0], progress := 3, atSecondIf := false } :=
      RecStep.secondIf _ rfl
    have r14 : RecReach 3 0
        { counter := 0, save_thread_finished := true, update_thread_finished := false, queue := [Job.update], frames := [0, 2, 0], progress := 3, atSecondIf := false } :=
      r13.tail t14
    have t15 : RecStep 3
        { counter := 0, save_thread_finished := true, update_thread_finished := false, queue := [Job.update], frames := [0, 2, 0], progress := 3, atSecondIf := false }
        { counter := 1, save_thread_finished := true, update_thread_finished := true, queue := [], frames := [0, 2, 0], progress := 3, atSecondIf := false } :=
      RecStep.gui _ (by decide)
    have r15 : RecReach 3 0
        { counter := 1, save_thread_finished := true, update_thread_finished := true, queue := [], frames := [0, 2, 0], progress := 3, atSecondIf := false } :=
      r14.tail t15
    exact r15
  · -- prompt schedule from counter 1
    have r0 : RecReach 3 1 (initRecFrom 1) := Relation.ReflTransGen.refl
    have t1 : RecStep 3
        { counter := 1, save_thread_finished := true, update_thread_finished := true, queue := [], frames := [], progress := 0, atSecondIf := false }
        { counter := 1, save_thread_finished := false, update_thread_finished := true, queue := [Job.save], frames := [], progress := 1, atSecondIf := true } :=
      RecStep.firstIf _ rfl (by decide)
    have r1 : RecReach 3 1
        { counter := 1, save_thread_finished := false, update_thread_finished := true, queue := [Job.save], frames := [], progress := 1, atSecondIf := true } :=
      r0.tail t1
    have t2 : RecStep 3
        { counter := 1, save_thread_finished := false, update_thread_finished := true, queue := [Job.save], frames := [], progress := 1, atSecondIf := true }
        { counter := 1, save_thread_finished := true, update_thread_finished := true, queue := [], frames := [1], progress := 1, atSecondIf := true } :=
      RecStep.gui _ (by decide)
    have r2 : RecReach 3 1
        { counter := 1, save_thread_finished := true, update_thread_finished := true, queue := [], frames := [1], progress := 1, atSecondIf := true } :=
      r1.tail t2
    have t3 : RecStep 3
        { counter := 1, save_thread_finished := true, update_thread_finished := true, queue := [], frames := [1], progress := 1, atSecondIf := true }
        { counter := 1, save_thread_finished := true, update_thread_finished := false, queue := [Job.update], frames := [1], progress := 1, atSecondIf := false } :=
      RecStep.secondIf _ rfl
    have r3 : RecReach 3 1
        { counter := 1, save_thread_finished := true, update_thread_finished := false, queue := [Job.update], frames := [1], progress := 1, atSecondIf := false } :=
      r2.tail t3
    have t4 : RecStep 3
        { counter := 1, save_thread_finished := true, update_thread_finished := false, queue := [Job.update], frames := [1], progress := 1, atSecondIf := false }
        { counter := 2, save_thread_finished := true, update_thread_finished := true, queue := [], frames := [1], progress := 1, atSecondIf := false } :=
      RecStep.gui _ (by decide)
    have r4 : RecReach 3 1
        { counter := 2, save_thread_finished := true, update_thread_finished := true, queue := [], frames := [1], progress := 1, atSecondIf := false } :=
      r3.tail t4
    have t5 : RecStep 3
        { counter := 2, save_thread_finished := true, update_thread_finished := true, queue := [], frames := [1], progress := 1, atSecondIf := false }
        { counter := 2, save_thread_finished := false, update_thread_finished := true, queue := [Job.save], frames := [1], progress := 2, atSecondIf := true } :=
      RecStep.firstIf _ rfl (by decide)
    have r5 : RecReach 3 1
        { counter := 2, save_thread_finished := false, update_thread_finished := true, queue := [Job.save], frames := [1], progress := 2, atSecondIf := true } :=
      r4.tail t5
    have t6 : RecStep 3
        { counter := 2, save_thread_finished := false, update_thread_finished := true, queue := [Job.save], frames := [1], progress := 2, atSecondIf := true }
        { counter := 2, save_thread_finished := true, update_thread_finished := true, queue := [], frames := [1, 2], progress := 2, atSecondIf := true } :=
      RecStep.gui _ (by decide)
    have r6 : RecReach 3 1
        { counter := 2, save_thread_finished := true, update_thread_finished := true, queue := [], frames := [1, 2], progress := 2, atSecondIf := true } :=
      r5.tail t6
    have t7 : RecStep 3
        { counter := 2, save_thread_finished := true, update_thread_finished := true, queue := [], frames := [1, 2], progress := 2, atSecondIf := true }
        { counter := 2, save_thread_finished := true, update_thread_finished := false, queue := [Job.update], frames := [1, 2], progress := 2, atSecondIf := false } :=
      RecStep.secondIf _ rfl
    have r7 : RecReach 3 1
        { counter := 2, save_thread_finished := true, update_thread_finished := false, queue := [Job.update], frames := [1, 2], progress := 2, atSecondIf := false } :=
      r6.tail t7
    have t8 : RecStep 3
        { counter := 2, save_thread_finished := true, update_thread_finished := false, queue := [Job.update], frames := [1, 2], progress := 2, atSecondIf := false }
        { counter := 0, save_thread_finished := true, update_thread_finished := true, queue := [], frames := [1, 2], progress := 2, atSecondIf := false } :=
      RecStep.gui _ (by decide)
    have r8 : RecReach 3 1
        { counter := 0, save_thread_finished := true, update_thread_finished := true, queue := [], frames := [1, 2], progress := 2, atSecondIf := false } :=
      r7.tail t8
    have t9 : RecStep 3
        { counter := 0, save_thread_finished := true, update_thread_finished := true, queue := [], frames := [1, 2], progress := 2, atSecondIf := false }
        { counter := 0, save_thread_finished := false, update_thread_finished := true, queue := [Job.save], frames := [1, 2], progress := 3, atSecondIf := true } :=
      RecStep.firstIf _ rfl (by decide)
    have r9 : RecReach 3 1
        { counter := 0, save_thread_finished := false, update_thread_finished := true, queue := [Job.save], frames := [1, 2], progress := 3, atSecondIf := true } :=
      r8.tail t9
    have t10 : RecStep 3
        { counter := 0, save_thread_finished := false, update_thread_finished := true, queue := [Job.save], frames := [1, 2], progress := 3, atSecondIf := true }
        { counter := 0, save_thread_finished := true, update_thread_finished := true, queue := [], frames := [1, 2, 0], progress := 3, atSecondIf := true } :=
      RecStep.gui _ (by decide)
    have r10 : RecReach 3 1
        { counter := 0, save_thread_finished := true, update_thread_finished := true, queue := [], frames := [1, 2, 0], progress := 3, atSecondIf := true } :=
      r9.tail t10
    have t11 : RecStep 3
        { counter := 0, save_thread_finished := true, update_thread_finished := true, queue := [], frames := [1, 2, 0], progress := 3, atSecondIf := true }
        { counter := 0, save_thread_finished := true, update_thread_finished := false, queue := [Job.update], frames := [1, 2, 0], progress := 3, atSecondIf := false } :=
      RecStep.secondIf _ rfl
    have r11 : RecReach 3 1
        { counter := 0, save_thread_finished := true, update_thread_finished := false, queue := [Job.update], frames := [1, 2, 0], progress := 3, atSecondIf := false } :=
      r10.tail t11
    have t12 : RecStep 3
        { counter := 0, save_thread_finished := true, update_thread_finished := false, queue := [Job.update], frames := [1, 2, 0], progress := 3, atSecondIf := false }
        { counter := 1, save_thread_finished := true, update_thread_finished := true, queue := [], frames := [1, 2, 0], progress := 3, atSecondIf := false } :=
      RecStep.gui _ (by decide)
    have r12 : RecReach 3 1
        { counter := 1, save_thread_finished := true, update_thread_finished := true, queue := [], frames := [1, 2, 0], progress := 3, atSecondIf := false } :=
      r11.tail t12
    exact r12

/-- Prompt-scheduling semantics: identical to `RecStep`, except the
driver executes a statement only after every submitted callable has
completed (the GUI queue is empty) — the behavior the frame-rate sleep
is intended to approximate. -/
inductive RecStepP (S : Nat) : RecState → RecState → Prop where
  | firstIf (s : RecState) : s.atSecondIf = false → s.progress < S →
      s.queue = [] → RecStepP S s (driverFirstIf s)
  | secondIf (s : RecState) : s.atSecondIf = true → s.queue = [] →
      RecStepP S s (driverSecondIf s)
  | gui (s : RecState) : s.queue ≠ [] → RecStepP S s (guiRun S s)

/-- Reachability under prompt scheduling, from the initial counter 0. -/
def RecReachP (S : Nat) (s : RecState) : Prop :=
  Relation.ReflTransGen (RecStepP S) (initRecFrom 0) s

/-- Loop-head shape after `p` capture submissions: queue drained, both
flags set, `p` frames written. -/
def phase0 (S p : Nat) : RecState :=
  { counter := p % S, save_thread_finished := true, update_thread_finished := true, queue := [], frames := List.range p, progress := p, atSecondIf := false }

/-- Shape right after the `p`-th capture was submitted by the first
`if`. -/
def phase1 (S p : Nat) : RecState :=
  { counter := (p - 1) % S, save_thread_finished := false, update_thread_finished := true, queue := [Job.save], frames := List.range (p - 1), progress := p, atSecondIf := true }

/-- Shape after the `p`-th capture callable completed, before the
second `if` ran. -/
def phase2 (S p : Nat) : RecState :=
  { counter := (p - 1) % S, save_thread_finished := true, update_thread_finished := true, queue := [], frames := List.range p, progress := p, atSecondIf := true }

/-- Shape after the second `if` submitted the `p`-th advance. -/
def phase3 (S p : Nat) : RecState :=
  { counter := (p - 1) % S, save_thread_finished := true, update_thread_finished := false, queue := [Job.update], frames := List.range p, progress := p, atSecondIf := false }

/-- Every state reachable under prompt scheduling is of one of the
four shapes. -/
def RecPInv (S : Nat) (s : RecState) : Prop :=
  ∃ p, p ≤ S ∧
    (s = phase0 S p ∨
     (1 ≤ p ∧ s = phase1 S p) ∨
     (1 ≤ p ∧ s = phase2 S p) ∨
     (1 ≤ p ∧ s = phase3 S p))

theorem driverFirstIf_phase0 (S p : Nat) :
    driverFirstIf (phase0 S p) = phase1 S (p + 1) := by
  simp [driverFirstIf, phase0, phase1]

theorem guiRun_phase1 (S p : Nat) (hp1 : 1 ≤ p) (hpS : p ≤ S) :
    guiRun S (phase1 S p) = phase2 S p := by
  obtain ⟨q, rfl⟩ : ∃ q, p = q + 1 := ⟨p - 1, by omega⟩
  have hq1 : q + 1 - 1 = q := by omega
  have hlt : q < S := by omega
  have hmod : q % S = q := Nat.mod_eq_of_lt hlt
  have hrange : List.range q ++ [q] = List.range (q + 1) := (List.range_succ q).symm
  simp [guiRun, phase1, phase2, hq1, hmod, hrange]

theorem driverSecondIf_phase2 (S p : Nat) :
    driverSecondIf (phase2 S p) = phase3 S p := by
  simp [driverSecondIf, phase2, phase3]

theorem guiRun_phase3 (S p : Nat) (hp1 : 1 ≤ p) (hpS : p ≤ S) :
    guiRun S (phase3 S p) = phase0 S p := by
  obtain ⟨q, rfl⟩ : ∃ q, p = q + 1 := ⟨p - 1, by omega⟩
  have hS : 1 ≤ S := by omega
  have hq1 : q + 1 - 1 = q := by omega
  have hlt : q < S := by omega
  have hmod : q % S = q := Nat.mod_eq_of_lt hlt
  have hadv : (update_particles S (q % S) none).counter = (q + 1) % S := by
    have h1 : (update_particles S (q % S) none).counter = advance S (q % S) := rfl
    rw [h1, hmod, advance_eq_mod S q hS hlt]
  simp [guiRun, phase3, phase0, hadv]

theorem recPInv_init (S : Nat) : RecPInv S (initRecFrom 0) := by
  refine ⟨0, Nat.zero_le S, Or.inl ?_⟩
  simp [initRecFrom, phase0]

theorem recPInv_step (S : Nat) (s s2 : RecState) (hInv : RecPInv S s)
    (hstep : RecStepP S s s2) : RecPInv S s2 := by
  obtain ⟨p, hpS, hcase⟩ := hInv
  cases hstep with
  | firstIf hat hlt hq =>
    rcases hcase with h0 | ⟨hp1, h1⟩ | ⟨hp1, h1⟩ | ⟨hp1, h1⟩
    · subst h0
      refine ⟨p + 1, ?_, Or.inr (Or.inl ⟨by omega, driverFirstIf_phase0 S p⟩)⟩
      have hplt : p < S := hlt
      omega
    · subst h1
      simp [phase1] at hq
    · subst h1
      simp [phase2] at hat
    · subst h1
      simp [phase3] at hq
  | secondIf hat hq =>
    rcases hcase with h0 | ⟨hp1, h1⟩ | ⟨hp1, h1⟩ | ⟨hp1, h1⟩
    · subst h0
      simp [phase0] at hat
    · subst h1
      simp [phase1] at hq
    · subst h1
      exact ⟨p, hpS, Or.inr (Or.inr (Or.inr ⟨hp1, driverSecondIf_phase2 S p⟩))⟩
    · subst h1
      simp [phase3] at hat
  | gui hq =>
    rcases hcase with h0 | ⟨hp1, h1⟩ | ⟨hp1, h1⟩ | ⟨hp1, h1⟩
    · subst h0
      simp [phase0] at hq
    · subst h1
      exact ⟨p, hpS, Or.inr (Or.inr (Or.inl ⟨hp1, guiRun_phase1 S p hp1 hpS⟩))⟩
    · subst h1
      simp [phase2] at hq
    · subst h1
      exact ⟨p, hpS, Or.inl (guiRun_phase3 S p hp1 hpS)⟩

theorem recPReach_inv (S : Nat) (s : RecState) (h : RecReachP S s) :
    RecPInv S s := by
  induction h with
  | refl => exact recPInv_init S
  | tail hab hbc ih => exact recPInv_step S _ _ ih hbc

theorem recPReach_phase0 (S : Nat) : ∀ p, p ≤ S → RecReachP S (phase0 S p) := by
  intro p
  induction p with
  | zero =>
    intro _
    have hinit : initRecFrom 0 = phase0 S 0 := by simp [initRecFrom, phase0]
    rw [← hinit]
    exact Relation.ReflTransGen.refl
  | succ p ih =>
    intro hpS
    have hp : p ≤ S := Nat.le_of_succ_le hpS
    have hplt : p < S := Nat.lt_of_succ_le hpS
    have h0 : RecReachP S (phase0 S p) := ih hp
    have hprog : (phase0 S p).progress = p := rfl
    have h1 : RecReachP S (phase1 S (p + 1)) := by
      have hstep : RecStepP S (phase0 S p) (driverFirstIf (phase0 S p)) :=
        RecStepP.firstIf (phase0 S p) rfl (by rw [hprog]; exact hplt) rfl
      rw [driverFirstIf_phase0] at hstep
      exact h0.tail hstep
    have h2 : RecReachP S (phase2 S (p + 1)) := by
      have hstep : RecStepP S (phase1 S (p + 1)) (guiRun S (phase1 S (p + 1))) :=
        RecStepP.gui (phase1 S (p + 1)) (by simp [phase1])
      rw [guiRun_phase1 S (p + 1) (by omega) hpS] at hstep
      exact h1.tail hstep
    have h3 : RecReachP S (phase3 S (p + 1)) := by
      have hstep : RecStepP S (phase2 S (p + 1)) (driverSecondIf (phase2 S (p + 1))) :=
        RecStepP.secondIf (phase2 S (p + 1)) rfl rfl
      rw [driverSecondIf_phase2] at hstep
      exact h2.tail hstep
    have hstep : RecStepP S (phase3 S (p + 1)) (guiRun S (phase3 S (p + 1))) :=
      RecStepP.gui (phase3 S (p + 1)) (by simp [phase3])
    rw [guiRun_phase3 S (p + 1) (by omega) hpS] at hstep
    exact h3.tail hstep

/-- Claim C1 amended: provided every submitted GUI callable completes
before the driver executes its next loop statement (the prompt
scheduling that the frame-rate sleep is intended to approximate) and
the run starts from the initial counter 0, a terminal configuration
(all `S` capture submissions made, the loop condition exhausted and
the GUI queue drained) is reachable, and every reachable terminal
configuration has written exactly the frame files with indices
`0, 1, ..., S - 1`, in strictly increasing write order, with none
skipped, duplicated or overwritten.  Without prompt scheduling frames
can be skipped and overwritten, and from a nonzero starting counter
the write order is rotated, per the counterexample. -/
theorem recording_frames_amended (S : Nat) (hS : 1 ≤ S) :
    (RecReachP S (phase0 S S) ∧ (phase0 S S).progress = S ∧
      (phase0 S S).queue = []) ∧
    (∀ s, RecReachP S s → s.progress = S → s.queue = [] →
      s.frames = List.range S ∧ s.frames.length = S) := by
  constructor
  · exact ⟨recPReach_phase0 S S (Nat.le_refl S), rfl, rfl⟩
  · intro s hreach hprog hqueue
    obtain ⟨p, hpS, hcase⟩ := recPReach_inv S s hreach
    rcases hcase with h0 | ⟨hp1, h1⟩ | ⟨hp1, h1⟩ | ⟨hp1, h1⟩
    · subst h0
      have hp : p = S := hprog
      subst hp
      exact ⟨rfl, List.length_range _⟩
    · subst h1
      simp [phase1] at hqueue
    · subst h1
      have hp : p = S := hprog
      subst hp
      exact ⟨rfl, List.length_range _⟩
    · subst h1
      simp [phase3] at hqueue

theorem recording_frames_amended_witness :
    (1 ≤ 3 ∧
     ((RecReachP 3 (phase0 3 3) ∧ (phase0 3 3).progress = 3 ∧
        (phase0 3 3).queue = []) ∧
      (∀ s, RecReachP 3 s → s.progress = 3 → s.queue = [] →
        s.frames = List.range 3 ∧ s.frames.length = 3))) :=
  ⟨by decide, recording_frames_amended 3 (by decide)⟩

/-! ### Play/Pause toggle and run loop
(`Visualizer._continuous_trajectory`, lines 269-281, and
`Visualizer._run_trajectory`, lines 326-344)

The Play action calls `_continuous_trajectory`: when `self.interrupt`
is `1` it calls `_pause_run` (sets `interrupt = 0`), otherwise it
spawns a new `_run_trajectory` thread.  A spawned thread first sets
`interrupt = 1`, then loops: while `counter < number_of_steps` it
sleeps, posts `_update_particles` (counter advance) and breaks when it
observes `interrupt == 0`; leaving the loop it assigns `interrupt = 0`
and the thread ends.  Each spawned thread is modelled by a status:
`spawned` (created, has not yet executed its first statement),
`looping` (set the flag and is in its loop), `exited`. -/

/-- Status of one spawned `_run_trajectory` thread. -/
inductive ThreadSt where
  | spawned
  | looping
  | exited
deriving DecidableEq

/-- Shared playback state: the run flag `self.interrupt`, the spawned
run-loop threads, and the step counter. -/
structure PlayState where
  interrupt : Nat
  threads : List ThreadSt
  counter : Nat
deriving DecidableEq

/-- Embedding of `_continuous_trajectory`: pause when the run flag is
set, otherwise spawn a new `_run_trajectory` thread. -/
def continuous_trajectory (s : PlayState) : PlayState :=
  if s.interrupt = 1 then { s with interrupt := 0 }
  else { s with threads := s.threads ++ [ThreadSt.spawned] }

/-- A spawned thread executes its first statement
`self.interrupt = 1` and enters its loop. -/
def runStart (i : Nat) (s : PlayState) : PlayState :=
  { s with interrupt := 1, threads := s.threads.set i ThreadSt.looping }

/-- One iteration of thread `i`'s `_run_trajectory` loop: check the
loop condition `counter < S`, post a counter advance, then exit
(assigning `interrupt = 0` after the loop) when `interrupt == 0` is
observed. -/
def runTick (S : Nat) (i : Nat) (s : PlayState) : PlayState :=
  if s.counter < S then
    let s2 := { s with counter := (update_particles S s.counter none).counter }
    if s2.interrupt = 0 then
      { s2 with threads := s2.threads.set i ThreadSt.exited, interrupt := 0 }
    else s2
  else { s with threads := s.threads.set i ThreadSt.exited, interrupt := 0 }

/-- Faithful interleaving semantics of the playback machinery: the
Play/Pause action may fire at any time, a spawned thread may execute
its first statement at any time, and a looping thread may run one loop
iteration at any time. -/
inductive PlayStep (S : Nat) : PlayState → PlayState → Prop where
  | toggle (s : PlayState) : PlayStep S s (continuous_trajectory s)
  | start (s : PlayState) (i : Nat) :
      s.threads[i]? = some ThreadSt.spawned → PlayStep S s (runStart i s)
  | tick (s : PlayState) (i : Nat) :
      s.threads[i]? = some ThreadSt.looping → PlayStep S s (runTick S i s)

/-- Initial playback state set by `_initialize_app`: run flag `0`, no
run-loop thread, counter `0`. -/
def initPlay : PlayState :=
  { interrupt := 0, threads := [], counter := 0 }

/-- Reachability under the faithful interleaving semantics. -/
def PlayReach (S : Nat) (s : PlayState) : Prop :=
  Relation.ReflTransGen (PlayStep S) initPlay s

/-- A thread is active when it was spawned and has not exited. -/
def isActive : ThreadSt → Bool
  | ThreadSt.exited => false
  | _ => true

/-- Number of active run-loop threads. -/
def activeCount (s : PlayState) : Nat :=
  s.threads.countP (fun t => isActive t)

/-- Claim C5 counterexample: two Play triggers in a row, both before either
spawned thread has executed its first statement (`interrupt = 1`), pass
the `interrupt == 1` state check and spawn two run-loop threads; a
state with two simultaneously looping threads is reachable, so the
state check does not prevent a second run loop while one is active. -/
theorem toggle_double_spawn_counterexample :
    PlayReach 5
      { interrupt := 1, threads := [ThreadSt.looping, ThreadSt.looping], counter := 0 } ∧
    activeCount
      { interrupt := 1, threads := [ThreadSt.looping, ThreadSt.looping], counter := 0 } = 2 := by
  constructor
  · have h1 : PlayStep 5 initPlay
        { interrupt := 0, threads := [ThreadSt.spawned], counter := 0 } :=
      PlayStep.toggle initPlay
    have h2 : PlayStep 5
        { interrupt := 0, threads := [ThreadSt.spawned], counter := 0 }
        { interrupt := 0, threads := [ThreadSt.spawned, ThreadSt.spawned], counter := 0 } :=
      PlayStep.toggle { interrupt := 0, threads := [ThreadSt.spawned], counter := 0 }
    have h3 : PlayStep 5
        { interrupt := 0, threads := [ThreadSt.spawned, ThreadSt.spawned], counter := 0 }
        { interrupt := 1, threads := [ThreadSt.looping, ThreadSt.spawned], counter := 0 } :=
      PlayStep.start
        { interrupt := 0, threads := [ThreadSt.spawned, ThreadSt.spawned], counter := 0 }
        0 rfl
    have h4 : PlayStep 5
        { interrupt := 1, threads := [ThreadSt.looping, ThreadSt.spawned], counter := 0 }
        { interrupt := 1, threads := [ThreadSt.looping, ThreadSt.looping], counter := 0 } :=
      PlayStep.start
        { interrupt := 1, threads := [ThreadSt.looping, ThreadSt.spawned], counter := 0 }
        1 rfl
    exact Relation.ReflTransGen.tail
      (Relation.ReflTransGen.tail
        (Relation.ReflTransGen.tail (Relation.ReflTransGen.single h1) h2) h3) h4
  · rfl

/-- A settled playback state: no spawned-but-unstarted thread, and
when the run flag is `0` no thread is still looping.  The amended claim
assumes the Play/Pause action only fires in settled states. -/
def settled (s : PlayState) : Prop :=
  (∀ t ∈ s.threads, t ≠ ThreadSt.spawned) ∧
  (s.interrupt = 0 → ∀ t ∈ s.threads, t ≠ ThreadSt.looping)

/-- Guarded semantics: identical to `PlayStep` except that the
Play/Pause action fires only in settled states. -/
inductive GPlayStep (S : Nat) : PlayState → PlayState → Prop where
  | toggle (s : PlayState) : settled s → GPlayStep S s (continuous_trajectory s)
  | start (s : PlayState) (i : Nat) :
      s.threads[i]? = some ThreadSt.spawned → GPlayStep S s (runStart i s)
  | tick (s : PlayState) (i : Nat) :
      s.threads[i]? = some ThreadSt.looping → GPlayStep S s (runTick S i s)

/-- Reachability under the guarded semantics. -/
def GPlayReach (S : Nat) (s : PlayState) : Prop :=
  Relation.ReflTransGen (GPlayStep S) initPlay s

/-- Shape of reachable guarded states: a history of exited threads plus
at most one live thread at the end; the run flag is `0` unless the live
thread is looping. -/
def PlayInv (s : PlayState) : Prop :=
  ∃ n,
    (s.threads = List.replicate n ThreadSt.exited ∧ s.interrupt = 0) ∨
    (s.threads = List.replicate n ThreadSt.exited ++ [ThreadSt.spawned] ∧
      s.interrupt = 0) ∨
    (s.threads = List.replicate n ThreadSt.exited ++ [ThreadSt.looping] ∧
      (s.interrupt = 0 ∨ s.interrupt = 1))

theorem getElem?_exited_append {n i : Nat} {a t : ThreadSt}
    (h : (List.replicate n ThreadSt.exited ++ [a])[i]? = some t) :
    t = ThreadSt.exited ∨ (i = n ∧ t = a) := by
  induction n generalizing i with
  | zero =>
    cases i with
    | zero =>
      simp at h
      exact Or.inr ⟨rfl, h.symm⟩
    | succ j => simp at h
  | succ n ih =>
    cases i with
    | zero =>
      simp [List.replicate_succ] at h
      exact Or.inl h.symm
    | succ j =>
      have h2 : (List.replicate n ThreadSt.exited ++ [a])[j]? = some t := by
        simpa [List.replicate_succ] using h
      rcases ih h2 with h3 | ⟨h3, h4⟩
      · exact Or.inl h3
      · exact Or.inr ⟨by omega, h4⟩

theorem set_exited_append (n : Nat) (a b : ThreadSt) :
    (List.replicate n ThreadSt.exited ++ [a]).set n b =
      List.replicate n ThreadSt.exited ++ [b] := by
  induction n with
  | zero => rfl
  | succ n ih => simp [List.replicate_succ, ih]

theorem countP_exited (n : Nat) :
    (List.replicate n ThreadSt.exited).countP (fun t => isActive t) = 0 := by
  induction n with
  | zero => rfl
  | succ n ih => simp [List.replicate_succ, List.countP_cons, ih, isActive]

theorem playInv_activeCount (s : PlayState) (h : PlayInv s) : activeCount s ≤ 1 := by
  obtain ⟨n, h1 | h2 | h3⟩ := h
  · rw [activeCount, h1.1, countP_exited]
    omega
  · rw [activeCount, h2.1, List.countP_append, countP_exited]
    simp [List.countP_cons, isActive]
  · rw [activeCount, h3.1, List.countP_append, countP_exited]
    simp [List.countP_cons, isActive]

theorem playInv_init : PlayInv initPlay :=
  ⟨0, Or.inl ⟨rfl, rfl⟩⟩

theorem playInv_step (S : Nat) (s s2 : PlayState) (hInv : PlayInv s)
    (hstep : GPlayStep S s s2) : PlayInv s2 := by
  obtain ⟨n, hcase⟩ := hInv
  cases hstep with
  | toggle hsettled =>
    obtain ⟨sint, sth, sc⟩ := s
    rcases hcase with ⟨hth, hint⟩ | ⟨hth, hint⟩ | ⟨hth, hint⟩ <;>
      simp only at hth hint
    · refine ⟨n, Or.inr (Or.inl ⟨?_, ?_⟩)⟩ <;>
        simp [continuous_trajectory, hint, hth]
    · exfalso
      have hmem : ThreadSt.spawned ∈ sth := by
        rw [hth]; simp
      exact hsettled.1 ThreadSt.spawned hmem rfl
    · rcases hint with hint | hint
      · exfalso
        have hmem : ThreadSt.looping ∈ sth := by
          rw [hth]; simp
        exact hsettled.2 hint ThreadSt.looping hmem rfl
      · refine ⟨n, Or.inr (Or.inr ⟨?_, Or.inl ?_⟩)⟩ <;>
          simp [continuous_trajectory, hint, hth]
  | start i hget =>
    obtain ⟨sint, sth, sc⟩ := s
    rcases hcase with ⟨hth, hint⟩ | ⟨hth, hint⟩ | ⟨hth, hint⟩ <;>
      simp only at hth hint hget
    · exfalso
      subst hth
      have := List.eq_of_mem_replicate (List.getElem?_mem hget)
      exact absurd this (by simp)
    · subst hth
      rcases getElem?_exited_append hget with h3 | ⟨h3, h4⟩
      · exact absurd h3 (by simp)
      · subst h3
        refine ⟨i, Or.inr (Or.inr ⟨?_, Or.inr ?_⟩)⟩ <;>
          simp [runStart, set_exited_append]
    · exfalso
      subst hth
      rcases getElem?_exited_append hget with h3 | ⟨h3, h4⟩
      · exact absurd h3 (by simp)
      · exact absurd h4 (by simp)
  | tick i hget =>
    obtain ⟨sint, sth, sc⟩ := s
    rcases hcase with ⟨hth, hint⟩ | ⟨hth, hint⟩ | ⟨hth, hint⟩ <;>
      simp only at hth hint hget
    · exfalso
      subst hth
      have := List.eq_of_mem_replicate (List.getElem?_mem hget)
      exact absurd this (by simp)
    · exfalso
      subst hth
      rcases getElem?_exited_append hget with h3 | ⟨h3, h4⟩
      · exact absurd h3 (by simp)
      · exact absurd h4 (by simp)
    · subst hth
      rcases getElem?_exited_append hget with h3 | ⟨h3, h4⟩
      · exact absurd h3 (by simp)
      · subst h3
        by_cases hc : sc < S
        · rcases hint with hint | hint
          · subst hint
            refine ⟨i + 1, Or.inl ⟨?_, ?_⟩⟩ <;>
              simp [runTick, hc, set_exited_append, List.replicate_succ']
          · subst hint
            refine ⟨i, Or.inr (Or.inr ⟨?_, Or.inr ?_⟩)⟩ <;>
              simp [runTick, hc]
        · refine ⟨i + 1, Or.inl ⟨?_, ?_⟩⟩ <;>
            simp [runTick, hc, set_exited_append, List.replicate_succ']

theorem gplayReach_inv (S : Nat) (s : PlayState) (h : GPlayReach S s) :
    PlayInv s := by
  induction h with
  | refl => exact playInv_init
  | tail hab hbc ih => exact playInv_step S _ _ ih hbc

/-- Claim C5 amended: at most one run-loop thread is active at a time
provided each Play/Pause trigger occurs in a settled state (every
previously spawned thread has already set the run flag, and after a
pause the paused thread has observed the flag and exited before Play is
pressed again); and toggling twice from the stopped state (play, then
pause) sets the run flag to `0` immediately, after which the run-loop
thread exits at its next loop iteration, leaving the machine stopped
with no run-loop thread active. -/
theorem playback_single_thread_amended (S : Nat) (hS : 1 ≤ S) :
    (∀ s, GPlayReach S s → activeCount s ≤ 1) ∧
    (GPlayReach S
      { interrupt := 0, threads := [ThreadSt.exited],
        counter := (update_particles S 0 none).counter } ∧
     activeCount
      { interrupt := 0, threads := [ThreadSt.exited],
        counter := (update_particles S 0 none).counter } = 0) := by
  constructor
  · intro s hs
    exact playInv_activeCount s (gplayReach_inv S s hs)
  · constructor
    · have h1 : GPlayStep S initPlay
          { interrupt := 0, threads := [ThreadSt.spawned], counter := 0 } :=
        GPlayStep.toggle initPlay (by constructor <;> simp [initPlay])
      have h2 : GPlayStep S
          { interrupt := 0, threads := [ThreadSt.spawned], counter := 0 }
          { interrupt := 1, threads := [ThreadSt.looping], counter := 0 } :=
        GPlayStep.start
          { interrupt := 0, threads := [ThreadSt.spawned], counter := 0 } 0 rfl
      have h3 : GPlayStep S
          { interrupt := 1, threads := [ThreadSt.looping], counter := 0 }
          { interrupt := 0, threads := [ThreadSt.looping], counter := 0 } :=
        GPlayStep.toggle
          { interrupt := 1, threads := [ThreadSt.looping], counter := 0 }
          (by constructor <;> simp)
      have h4 : GPlayStep S
          { interrupt := 0, threads := [ThreadSt.looping], counter := 0 }
          { interrupt := 0, threads := [ThreadSt.exited],
            counter := (update_particles S 0 none).counter } := by
        have hstep : GPlayStep S
            { interrupt := 0, threads := [ThreadSt.looping], counter := 0 }
            (runTick S 0 { interrupt := 0, threads := [ThreadSt.looping], counter := 0 }) :=
          GPlayStep.tick
            { interrupt := 0, threads := [ThreadSt.looping], counter := 0 } 0 rfl
        have hrun : runTick S 0
            { interrupt := 0, threads := [ThreadSt.looping], counter := 0 } =
            { interrupt := 0, threads := [ThreadSt.exited],
              counter := (update_particles S 0 none).counter } := by
          have h0 : (0 : Nat) < S := hS
          simp [runTick, h0]
        rw [hrun] at hstep
        exact hstep
      exact Relation.ReflTransGen.tail
        (Relation.ReflTransGen.tail
          (Relation.ReflTransGen.tail (Relation.ReflTransGen.single h1) h2) h3) h4
    · rfl

theorem playback_single_thread_amended_witness :
    1 ≤ 4 ∧
    ((∀ s, GPlayReach 4 s → activeCount s ≤ 1) ∧
     (GPlayReach 4
       { interrupt := 0, threads := [ThreadSt.exited],
         counter := (update_particles 4 0 none).counter } ∧
      activeCount
       { interrupt := 0, threads := [ThreadSt.exited],
         counter := (update_particles 4 0 none).counter } = 0)) :=
  ⟨by decide, playback_single_thread_amended 4 (by decide)⟩

/-! ### Export Scene (`Visualizer._export_scene`, lines 186-211)

Saves the run flag, stops any live feed (`interrupt = 0`), sums the
particles' cached meshes at the current counter
(`mesh = particles[0].mesh_dict[counter]`, then `mesh += ...` for the
rest), writes the combined mesh, and calls `_continuous_trajectory`
again (restarting the feed) exactly when the old flag was `1`.
Meshes are modelled as lists of abstract vertices, `+` as
concatenation; each particle is modelled by its `mesh_dict`, a map
from step to mesh. -/

/-- Result of one Export Scene action: the run flag while the mesh is
assembled and written, the combined mesh written to disk (`none` would
mean the `mesh` variable was never assigned), and the run flag after
the action (after any restart). -/
def export_scene (mesh_dicts : List (Nat → List Nat)) (counter : Nat)
    (interrupt : Nat) : Nat × Option (List Nat) × Nat :=
  let old_state := interrupt
  let duringWrite : Nat := 0
  let mesh : Option (List Nat) :=
    match mesh_dicts with
    | [] => none
    | m :: rest => some (rest.foldl (fun acc f => acc ++ f counter) (m counter))
  (duringWrite, mesh, if old_state = 1 then 1 else duringWrite)

/-- The union of every particle's geometry at one step, as the spec
describes the written file. -/
def sceneUnion (mesh_dicts : List (Nat → List Nat)) (counter : Nat) : List Nat :=
  (mesh_dicts.map (fun f => f counter)).flatten

theorem foldl_append_mesh (c : Nat) (rest : List (Nat → List Nat)) :
    ∀ acc : List Nat,
      rest.foldl (fun acc f => acc ++ f c) acc = acc ++ sceneUnion rest c := by
  induction rest with
  | nil => intro acc; simp [sceneUnion]
  | cons f fs ih =>
    intro acc
    simp only [List.foldl_cons, sceneUnion, List.map_cons, List.flatten_cons]
    rw [ih (acc ++ f c), List.append_assoc]
    rfl

/-- Claim C8: for a nonempty particle list and a run flag that is `0` or `1`,
Export Scene pauses playback (run flag `0` while the file is written),
writes exactly one combined mesh, the union of every particle's
geometry at the current step counter, and afterwards the run flag
equals the flag at trigger time: playback is resumed if and only if it
had been running. -/
theorem export_scene_spec (mesh_dicts : List (Nat → List Nat)) (c : Nat)
    (i : Nat) (hne : mesh_dicts ≠ []) (hi : i = 0 ∨ i = 1) :
    (export_scene mesh_dicts c i).1 = 0 ∧
    (export_scene mesh_dicts c i).2.1 = some (sceneUnion mesh_dicts c) ∧
    (export_scene mesh_dicts c i).2.2 = i := by
  match mesh_dicts, hne with
  | m :: rest, _ =>
    refine ⟨rfl, ?_, ?_⟩
    · show some (rest.foldl (fun acc f => acc ++ f c) (m c)) =
        some (sceneUnion (m :: rest) c)
      rw [foldl_append_mesh c rest (m c)]
      simp [sceneUnion]
    · rcases hi with hi | hi <;> subst hi <;> rfl

theorem export_scene_spec_witness :
    (([fun k => [k, k], fun _ => [7]] : List (Nat → List Nat)) ≠ [] ∧
      ((1 : Nat) = 0 ∨ (1 : Nat) = 1)) ∧
    ((export_scene [fun k => [k, k], fun _ => [7]] 2 1).1 = 0 ∧
     (export_scene [fun k => [k, k], fun _ => [7]] 2 1).2.1 =
       some (sceneUnion [fun k => [k, k], fun _ => [7]] 2) ∧
     (export_scene [fun k => [k, k], fun _ => [7]] 2 1).2.2 = 1) :=
  ⟨⟨List.cons_ne_nil _ _, Or.inr rfl⟩,
   export_scene_spec [fun k => [k, k], fun _ => [7]] 2 1
     (List.cons_ne_nil _ _) (Or.inr rfl)⟩

/-! ### Constructor (`Visualizer.__init__`, lines 56-96)

The constructor stores its arguments without validation.  The only
failure path is `particles[0].position.shape[0]` when
`number_of_steps is None` and the particle list is empty. -/

/-- Stored configuration of a constructed `Visualizer`.  A particle is
modelled by its trajectory, a list of poses (`position.shape[0]` is its
length); poses themselves are irrelevant to construction. -/
structure VisConfig where
  particles : List (List Nat)
  frame_rate : Int
  number_of_steps : Nat
  store_run_files : Bool
  video_format : String
deriving DecidableEq

/-- Embedding of `Visualizer.__init__`.  When `number_of_steps` is
`None` it is read from the first particle with `particles[0]`, an
`IndexError` on an empty list; every argument combination with an
explicit step count is accepted unchecked. -/
def visualizerInit (particles : List (List Nat)) (frame_rate : Int)
    (number_of_steps : Option Nat) (store_run_files : Bool)
    (video_format : String) : Except String VisConfig :=
  match number_of_steps with
  | some n =>
    Except.ok
      { particles := particles, frame_rate := frame_rate, number_of_steps := n,
        store_run_files := store_run_files, video_format := video_format }
  | none =>
    match particles with
    | [] => Except.error "IndexError: list index out of range"
    | p :: rest =>
      Except.ok
        { particles := p :: rest, frame_rate := frame_rate,
          number_of_steps := p.length, store_run_files := store_run_files,
          video_format := video_format }

/-- Claim C9 counterexample: a configuration with frame rate `0`
(non-positive) and a trajectory of length `3` shorter than the declared
step count `5` is accepted by the constructor, and so is an empty
particle list when the step count is explicit; no configuration error is
surfaced at construction time. -/
theorem init_no_validation_counterexample :
    succeeded (visualizerInit [[0, 0, 0]] 0 (some 5) false "avi") = true ∧
    succeeded (visualizerInit [] (-1) (some 3) false "avi") = true := by
  decide

/-- Claim C9 amended: the constructor performs no configuration validation.
Every particle list, frame rate (including non-positive ones) and
explicit step count (including counts exceeding the trajectory lengths)
is accepted at construction; such errors surface only later, during
playback or recording.  An empty particle list fails at construction
only when `number_of_steps` is `None`, through the `IndexError` from
reading the first particle, and a nonempty list with `None` takes its
first particle's trajectory length as the step count. -/
theorem init_validation_amended (particles : List (List Nat)) (fr : Int)
    (n : Nat) (store : Bool) (fmt : String) :
    visualizerInit particles fr (some n) store fmt =
      Except.ok
        { particles := particles, frame_rate := fr, number_of_steps := n,
          store_run_files := store, video_format := fmt } ∧
    visualizerInit [] fr none store fmt =
      Except.error "IndexError: list index out of range" ∧
    (∀ p rest, visualizerInit (p :: rest) fr none store fmt =
      Except.ok
        { particles := p :: rest, frame_rate := fr, number_of_steps := p.length,
          store_run_files := store, video_format := fmt }) :=
  ⟨rfl, rfl, fun _ _ => rfl⟩

end ZnVis
